import Mathlib

/-!
Verification development for the monitoring provisioning workflow
(`monitoring-setup` script) and the demo HTTP server of this repository.

The workflow is embedded as an explicit state-passing function over a model
of the cloud account's resource namespace.  Each remote CLI invocation is
numbered in program order; a failure oracle `fail : Nat → Bool` says which
invocations fail (network/provider errors).  The create commands follow the
provider's create-or-update (find-or-create) semantics on the resource's
(resource-group, name) key, as described by the collaborator contract of the
specification (`createOrGet*` operations).
-/

/-! ## Data model -/

/-- Input parameters of the monitoring setup script (its `param` block):
`ResourceGroupName`, `WebAppName`, `Location` (default `eastus`),
`AlertEmailAddress`. -/
structure Params where
  resourceGroupName : String
  webAppName : String
  location : String
  alertEmailAddress : String
deriving DecidableEq

/-- The logged-in account returned by `az account show`. -/
structure Account where
  name : String
deriving DecidableEq

/-- The target application descriptor returned by `az webapp show`:
its resource id and its parent compute-plan (App Service Plan) id. -/
structure WebApp where
  id : String
  appServicePlanId : String
deriving DecidableEq

/-- A web-app entry of the cloud state, keyed by resource group and name. -/
structure WebAppEntry where
  rg : String
  name : String
  app : WebApp
deriving DecidableEq

/-- A Log Analytics workspace resource. -/
structure Workspace where
  rg : String
  name : String
  id : String
  location : String
  retentionDays : Nat
deriving DecidableEq

/-- An Application Insights (telemetry) component resource. -/
structure AppInsights where
  rg : String
  name : String
  id : String
  location : String
  workspaceId : String
  connectionString : String
deriving DecidableEq

/-- An application configuration entry (`az webapp config appsettings set`). -/
structure Setting where
  rg : String
  app : String
  key : String
  value : String
deriving DecidableEq

/-- An action group (notification group) resource. -/
structure ActionGroup where
  rg : String
  name : String
  id : String
  shortName : String
  emailReceivers : List (String × String)
deriving DecidableEq

/-- Metric aggregation used in an alert condition. -/
inductive Agg
  | avg
  | total
deriving DecidableEq

/-- A metric alert rule, carrying every argument of
`az monitor metrics alert create`: name, resource group, scope, the
condition (aggregation, metric, operator, threshold), window size,
evaluation frequency, severity, description and the action group id. -/
structure AlertRuleSpec where
  name : String
  rg : String
  scopes : String
  aggregation : Agg
  metric : String
  op : String
  threshold : Nat
  windowMinutes : Nat
  frequencyMinutes : Nat
  severity : Nat
  description : String
  action : String
deriving DecidableEq

/-- A diagnostic setting (`az monitor diagnostic-settings create`):
name, target resource, destination workspace, log and metric categories. -/
structure DiagSetting where
  name : String
  resourceId : String
  workspaceId : String
  logs : List (String × Bool)
  metrics : List (String × Bool)
deriving DecidableEq

/-- The cloud account's resource namespace: the system of record the
workflow's remote calls read and write. -/
structure CloudState where
  account : Option Account
  webApps : List WebAppEntry
  workspaces : List Workspace
  appInsights : List AppInsights
  appSettings : List Setting
  actionGroups : List ActionGroup
  alertRules : List AlertRuleSpec
  diagSettings : List DiagSetting
deriving DecidableEq

/-! ## Keyed-list primitives (create-or-get / create-or-replace semantics) -/

/-- Create-or-get: if a resource matching the key already exists, the create
call leaves the namespace unchanged; otherwise the new resource is added. -/
def keyedCreate (l : List α) (k : α → Bool) (new : α) : List α :=
  match l.find? k with
  | some _ => l
  | none => l ++ [new]

/-- Create-or-replace: if a resource matching the key already exists it is
replaced wholesale (no incremental merge); otherwise the new one is added. -/
def keyedReplace (l : List α) (k : α → Bool) (new : α) : List α :=
  match l.find? k with
  | some _ => l.map (fun x => if k x then new else x)
  | none => l ++ [new]

theorem find?_keyedCreate (l : List α) (k : α → Bool) (new : α) (hk : k new = true) :
    (keyedCreate l k new).find? k = some ((l.find? k).getD new) := by
  unfold keyedCreate
  cases h : l.find? k with
  | some x => simp [h]
  | none => simp [h, List.find?_append, hk]

theorem keyedCreate_of_found (l : List α) (k : α → Bool) (new : α) (x : α)
    (h : l.find? k = some x) : keyedCreate l k new = l := by
  unfold keyedCreate
  rw [h]

theorem find?_isSome_keyedCreate_mono (l : List α) (k k' : α → Bool) (x : α)
    (h : (l.find? k).isSome) : ((keyedCreate l k' x).find? k).isSome := by
  unfold keyedCreate
  cases hf : l.find? k' with
  | some y => simpa using h
  | none =>
    rw [List.find?_append]
    cases hg : l.find? k with
    | some y => simp [hg]
    | none => rw [hg] at h; simp at h

theorem keyedReplace_idem (l : List α) (k : α → Bool) (new : α) (hk : k new = true) :
    keyedReplace (keyedReplace l k new) k new = keyedReplace l k new := by
  unfold keyedReplace
  cases h : l.find? k with
  | some x =>
    have hx : k x = true := List.find?_some h
    have hmem : x ∈ l := List.mem_of_find?_eq_some h
    have hsome : ((l.map (fun y => if k y then new else y)).find? k).isSome := by
      rw [List.find?_isSome]
      exact ⟨new, List.mem_map.mpr ⟨x, hmem, by simp [hx]⟩, hk⟩
    cases h2 : (l.map (fun y => if k y then new else y)).find? k with
    | none => rw [h2] at hsome; simp at hsome
    | some z =>
      simp only [List.map_map]
      apply List.map_congr_left
      intro a _
      by_cases ha : k a = true
      · simp [ha, hk]
      · simp [ha, Function.comp]
  | none =>
    have hall : ∀ x ∈ l, ¬ k x := List.find?_eq_none.mp h
    have h2 : (l ++ [new]).find? k = some new := by
      rw [List.find?_append, h]
      simp [hk]
    rw [h2]
    simp only [List.map_append, List.map_cons, List.map_nil, hk, if_pos rfl]
    congr 1
    have hid : ∀ a ∈ l, (fun x => if k x = true then new else x) a = id a := by
      intro a hmem
      simp [hall a hmem]
    rw [List.map_congr_left hid, List.map_id]

/-! ## Application settings (key-value upsert) -/

/-- Upsert one configuration entry: replace the value of the existing entry
with the same (resource-group, app, key) triple, or append a new entry. -/
def setAppSetting : List Setting → String → String → String → String → List Setting
  | [], rg, app, key, v => [⟨rg, app, key, v⟩]
  | s :: rest, rg, app, key, v =>
    if s.rg == rg && s.app == app && s.key == key then { s with value := v } :: rest
    else s :: setAppSetting rest rg app key v

/-- Read one configuration entry. -/
def getAppSetting : List Setting → String → String → String → Option String
  | [], _, _, _ => none
  | s :: rest, rg, app, key =>
    if s.rg == rg && s.app == app && s.key == key then some s.value
    else getAppSetting rest rg app key

/-- Apply a list of configuration entries in order. -/
def applySettings (rg app : String) : List Setting → List (String × String) → List Setting
  | l, [] => l
  | l, (k, v) :: rest => applySettings rg app (setAppSetting l rg app k v) rest

theorem getAppSetting_set_same (l : List Setting) (rg app key v : String) :
    getAppSetting (setAppSetting l rg app key v) rg app key = some v := by
  induction l with
  | nil => simp [setAppSetting, getAppSetting]
  | cons s rest ih =>
    by_cases h : (s.rg == rg && s.app == app && s.key == key) = true
    · simp [setAppSetting, getAppSetting, h]
    · simp only [setAppSetting, h, Bool.false_eq_true, if_neg, ite_false]
      simp [getAppSetting, h, ih]

theorem getAppSetting_set_ne (l : List Setting) (rg app key key' v : String)
    (hk : (key' == key) = false) :
    getAppSetting (setAppSetting l rg app key' v) rg app key = getAppSetting l rg app key := by
  induction l with
  | nil =>
    simp [setAppSetting, getAppSetting, hk]
  | cons s rest ih =>
    by_cases h : (s.rg == rg && s.app == app && s.key == key') = true
    · have hkey : s.key == key' := by
        simp only [Bool.and_eq_true] at h
        exact h.2
      have hne : (s.key == key) = false := by
        have : s.key = key' := by simpa using hkey
        rw [this]
        exact hk
      simp only [setAppSetting, h, if_pos]
      simp [getAppSetting, hne]
    · simp only [setAppSetting, h, Bool.false_eq_true, if_neg, ite_false]
      by_cases h2 : (s.rg == rg && s.app == app && s.key == key) = true
      · simp [getAppSetting, h2]
      · simp [getAppSetting, h2, ih]

theorem setAppSetting_of_get_eq (l : List Setting) (rg app key v : String)
    (h : getAppSetting l rg app key = some v) : setAppSetting l rg app key v = l := by
  induction l with
  | nil => simp [getAppSetting] at h
  | cons s rest ih =>
    by_cases hm : (s.rg == rg && s.app == app && s.key == key) = true
    · simp only [getAppSetting, hm, if_pos, Option.some.injEq] at h
      simp only [setAppSetting, hm, if_pos]
      rw [← h]
    · simp only [getAppSetting, hm, Bool.false_eq_true, if_neg, ite_false] at h
      simp [setAppSetting, hm, ih h]

/-! ## Naming resolver (script lines 61–63) -/

/-- The three derived resource names. -/
structure DerivedNames where
  workspaceName : String
  telemetryName : String
  notificationGroupName : String
deriving DecidableEq

/-- The naming convention of the script:
`log-$WebAppName`, `appi-$WebAppName`, `ag-$WebAppName-alerts`. -/
def deriveNames (applicationName : String) : DerivedNames :=
  { workspaceName := "log-" ++ applicationName
    telemetryName := "appi-" ++ applicationName
    notificationGroupName := "ag-" ++ applicationName ++ "-alerts" }

/-! ## Resource constructors and key predicates -/

def wsKey (rg n : String) : Workspace → Bool := fun w => w.rg == rg && w.name == n

def aiKey (rg n : String) : AppInsights → Bool := fun a => a.rg == rg && a.name == n

def agKey (rg n : String) : ActionGroup → Bool := fun g => g.rg == rg && g.name == n

def alertRuleKey (rg n : String) : AlertRuleSpec → Bool := fun a => a.rg == rg && a.name == n

def diagSettingKey (res n : String) : DiagSetting → Bool :=
  fun d => d.resourceId == res && d.name == n

def webAppKey (rg n : String) : WebAppEntry → Bool := fun e => e.rg == rg && e.name == n

/-- `az webapp show --name n --resource-group rg`. -/
def findWebApp (st : CloudState) (rg n : String) : Option WebApp :=
  (st.webApps.find? (webAppKey rg n)).map (·.app)

def mkWorkspace (rg n loc : String) (retention : Nat) : Workspace :=
  { rg := rg, name := n
    id := "/resourceGroups/" ++ rg ++ "/providers/Microsoft.OperationalInsights/workspaces/" ++ n
    location := loc, retentionDays := retention }

def mkAppInsights (rg n loc wsId : String) : AppInsights :=
  { rg := rg, name := n
    id := "/resourceGroups/" ++ rg ++ "/providers/microsoft.insights/components/" ++ n
    location := loc, workspaceId := wsId
    connectionString := "InstrumentationKey=" ++ n }

def mkActionGroup (rg n short receiverName email : String) : ActionGroup :=
  { rg := rg, name := n
    id := "/resourceGroups/" ++ rg ++ "/providers/microsoft.insights/actionGroups/" ++ n
    shortName := short, emailReceivers := [(receiverName, email)] }

/-- The three settings applied by `az webapp config appsettings set`
(script lines 116–123). -/
def appInsightsSettings (cs : String) : List (String × String) :=
  [("APPLICATIONINSIGHTS_CONNECTION_STRING", cs),
   ("ApplicationInsightsAgent_EXTENSION_VERSION", "~3"),
   ("XDT_MicrosoftApplicationInsights_Mode", "Recommended")]

/-! ## The four alert rules (script lines 149–207) -/

/-- CPU alert: `avg CpuPercentage > 80`, scoped to the App Service Plan. -/
def cpuAlertSpec (p : Params) (planId agId : String) : AlertRuleSpec :=
  { name := "alert-cpu-high-" ++ p.webAppName
    rg := p.resourceGroupName
    scopes := planId
    aggregation := Agg.avg, metric := "CpuPercentage", op := ">", threshold := 80
    windowMinutes := 5, frequencyMinutes := 1, severity := 2
    description := "Alert when CPU exceeds 80% for 5 minutes"
    action := agId }

/-- Memory alert: `avg MemoryPercentage > 85`, scoped to the App Service Plan. -/
def memoryAlertSpec (p : Params) (planId agId : String) : AlertRuleSpec :=
  { name := "alert-memory-high-" ++ p.webAppName
    rg := p.resourceGroupName
    scopes := planId
    aggregation := Agg.avg, metric := "MemoryPercentage", op := ">", threshold := 85
    windowMinutes := 5, frequencyMinutes := 1, severity := 2
    description := "Alert when memory exceeds 85% for 5 minutes"
    action := agId }

/-- HTTP 5xx alert: `total Http5xx > 10`, scoped to the Web App. -/
def http5xxAlertSpec (p : Params) (appId agId : String) : AlertRuleSpec :=
  { name := "alert-http5xx-" ++ p.webAppName
    rg := p.resourceGroupName
    scopes := appId
    aggregation := Agg.total, metric := "Http5xx", op := ">", threshold := 10
    windowMinutes := 5, frequencyMinutes := 1, severity := 1
    description := "Alert when HTTP 5xx errors exceed 10 in 5 minutes"
    action := agId }

/-- Response-time alert: `avg HttpResponseTime > 5`, scoped to the Web App. -/
def responseTimeAlertSpec (p : Params) (appId agId : String) : AlertRuleSpec :=
  { name := "alert-response-time-" ++ p.webAppName
    rg := p.resourceGroupName
    scopes := appId
    aggregation := Agg.avg, metric := "HttpResponseTime", op := ">", threshold := 5
    windowMinutes := 5, frequencyMinutes := 1, severity := 3
    description := "Alert when average response time exceeds 5 seconds"
    action := agId }

/-- Diagnostic-settings payload (script lines 211–212): three log categories,
all metrics. -/
def diagLogsConfig : List (String × Bool) :=
  [("AppServiceHTTPLogs", true), ("AppServiceConsoleLogs", true), ("AppServiceAppLogs", true)]

def diagMetricsConfig : List (String × Bool) := [("AllMetrics", true)]

def mkDiagSetting (p : Params) (resId wsId : String) : DiagSetting :=
  { name := "diag-" ++ p.webAppName
    resourceId := resId
    workspaceId := wsId
    logs := diagLogsConfig
    metrics := diagMetricsConfig }

/-! ## Remote calls and run outcome -/

/-- One remote CLI invocation, with its arguments, in program order. -/
inductive Call
  | accountShow
  | webAppShow (rg name : String)
  | workspaceCreate (rg name loc : String) (retention : Nat)
  | workspaceShow (rg name : String)
  | appInsightsCreate (rg name loc wsId : String)
  | appInsightsShow (rg name : String)
  | appSettingsSet (rg name : String) (settings : List (String × String))
  | actionGroupCreate (rg name shortName receiverName email : String)
  | actionGroupShow (rg name : String)
  | metricsAlertCreate (spec : AlertRuleSpec)
  | diagnosticSettingsCreate (d : DiagSetting)
deriving DecidableEq

/-- Whether a call is one of the create-or-fetch / mutating operations of the
Cloud Resource API (everything except the two precondition reads). -/
def Call.isCreateOrFetch : Call → Bool
  | Call.accountShow => false
  | Call.webAppShow _ _ => false
  | _ => true

/-- Workflow status: `Success` when every step completed, `Failure` when the
precondition check (step 1) failed, `PartialFailure` when a later step
failed after resources may already have been touched. -/
inductive Status
  | Success
  | PartialFailure
  | Failure
deriving DecidableEq

/-- The provisioning result assembled incrementally by the workflow: the
created-or-found identifiers gathered so far, the status, and the process
exit code (0 for success, 1 otherwise, matching the script's `exit 1`). -/
structure RunResult where
  status : Status
  exitCode : Nat
  workspaceId : Option String
  connectionString : Option String
  actionGroupId : Option String
  alertRuleNames : List String
  errorMessage : Option String
deriving DecidableEq

/-- Everything observable about one run: the result, the final cloud state,
and the trace of remote calls that were invoked. -/
structure RunOutcome where
  result : RunResult
  state : CloudState
  trace : List Call
deriving DecidableEq

/-- Helper building the outcome of a run that stopped with an error. -/
def errOutcome (status : Status) (wsId cs agId : Option String) (alerts : List String)
    (msg : String) (st : CloudState) (tr : List Call) : RunOutcome :=
  { result := { status := status, exitCode := 1, workspaceId := wsId,
                connectionString := cs, actionGroupId := agId,
                alertRuleNames := alerts, errorMessage := some msg }
    state := st, trace := tr }

/-- The oracle under which no remote call fails. -/
def noFail : Nat → Bool := fun _ => false

/-- The oracle under which exactly the remote call numbered `n` fails. -/
def failAt (n : Nat) : Nat → Bool := fun k => k == n

/-! ## The provisioning workflow (the script's `try` block, lines 65–245)

Remote calls are numbered 0–13 in program order:
0 `az account show`, 1 `az webapp show`, 2 workspace create, 3 workspace
show, 4 app-insights create, 5 app-insights show, 6 appsettings set,
7 action-group create, 8 action-group show, 9–12 the four metric alert
creates, 13 diagnostic-settings create. -/
def run (p : Params) (st0 : CloudState) (fail : Nat → Bool) : RunOutcome :=
  let names := deriveNames p.webAppName
  let rg := p.resourceGroupName
  let tr0 := [Call.accountShow]
  match (if fail 0 then none else st0.account) with
  | none =>
    errOutcome Status.Failure none none none []
      "Not logged into Azure CLI. Please run az login first." st0 tr0
  | some _account =>
  let tr1 := tr0 ++ [Call.webAppShow rg p.webAppName]
  match (if fail 1 then none else findWebApp st0 rg p.webAppName) with
  | none =>
    errOutcome Status.Failure none none none []
      "Web App not found in resource group." st0 tr1
  | some webApp =>
  let tr2 := tr1 ++ [Call.workspaceCreate rg names.workspaceName p.location 30]
  if fail 2 then
    errOutcome Status.PartialFailure none none none []
      "log-analytics workspace create failed" st0 tr2
  else
  let st2 := { st0 with workspaces :=
    (keyedCreate st0.workspaces (wsKey rg names.workspaceName)
      (mkWorkspace rg names.workspaceName p.location 30)) }
  let tr3 := tr2 ++ [Call.workspaceShow rg names.workspaceName]
  if fail 3 then
    errOutcome Status.PartialFailure none none none []
      "log-analytics workspace show failed" st2 tr3
  else
  match st2.workspaces.find? (wsKey rg names.workspaceName) with
  | none =>
    errOutcome Status.PartialFailure none none none []
      "log-analytics workspace show returned nothing" st2 tr3
  | some logAnalytics =>
  let tr4 := tr3 ++ [Call.appInsightsCreate rg names.telemetryName p.location logAnalytics.id]
  if fail 4 then
    errOutcome Status.PartialFailure (some logAnalytics.id) none none []
      "app-insights component create failed" st2 tr4
  else
  let st4 := { st2 with appInsights :=
    (keyedCreate st2.appInsights (aiKey rg names.telemetryName)
      (mkAppInsights rg names.telemetryName p.location logAnalytics.id)) }
  let tr5 := tr4 ++ [Call.appInsightsShow rg names.telemetryName]
  if fail 5 then
    errOutcome Status.PartialFailure (some logAnalytics.id) none none []
      "app-insights component show failed" st4 tr5
  else
  match st4.appInsights.find? (aiKey rg names.telemetryName) with
  | none =>
    errOutcome Status.PartialFailure (some logAnalytics.id) none none []
      "app-insights component show returned nothing" st4 tr5
  | some appInsights =>
  let settings := appInsightsSettings appInsights.connectionString
  let tr6 := tr5 ++ [Call.appSettingsSet rg p.webAppName settings]
  if fail 6 then
    errOutcome Status.PartialFailure (some logAnalytics.id)
      (some appInsights.connectionString) none []
      "webapp config appsettings set failed" st4 tr6
  else
  let st6 := { st4 with appSettings := applySettings rg p.webAppName st4.appSettings settings }
  let tr7 := tr6 ++
    [Call.actionGroupCreate rg names.notificationGroupName "AppAlerts" "AdminEmail"
      p.alertEmailAddress]
  if fail 7 then
    errOutcome Status.PartialFailure (some logAnalytics.id)
      (some appInsights.connectionString) none []
      "action-group create failed" st6 tr7
  else
  let st7 := { st6 with actionGroups :=
    (keyedCreate st6.actionGroups (agKey rg names.notificationGroupName)
      (mkActionGroup rg names.notificationGroupName "AppAlerts" "AdminEmail"
        p.alertEmailAddress)) }
  let tr8 := tr7 ++ [Call.actionGroupShow rg names.notificationGroupName]
  if fail 8 then
    errOutcome Status.PartialFailure (some logAnalytics.id)
      (some appInsights.connectionString) none []
      "Failed to create Action Group" st7 tr8
  else
  match st7.actionGroups.find? (agKey rg names.notificationGroupName) with
  | none =>
    errOutcome Status.PartialFailure (some logAnalytics.id)
      (some appInsights.connectionString) none []
      "Failed to create Action Group" st7 tr8
  | some actionGroup =>
  let appServicePlanId := webApp.appServicePlanId
  let cpuSpec := cpuAlertSpec p appServicePlanId actionGroup.id
  let tr9 := tr8 ++ [Call.metricsAlertCreate cpuSpec]
  if fail 9 then
    errOutcome Status.PartialFailure (some logAnalytics.id)
      (some appInsights.connectionString) (some actionGroup.id) []
      "cpu metrics alert create failed" st7 tr9
  else
  let st9 := { st7 with alertRules :=
    (keyedCreate st7.alertRules (alertRuleKey rg cpuSpec.name) cpuSpec) }
  let memSpec := memoryAlertSpec p appServicePlanId actionGroup.id
  let tr10 := tr9 ++ [Call.metricsAlertCreate memSpec]
  if fail 10 then
    errOutcome Status.PartialFailure (some logAnalytics.id)
      (some appInsights.connectionString) (some actionGroup.id) [cpuSpec.name]
      "memory metrics alert create failed" st9 tr10
  else
  let st10 := { st9 with alertRules :=
    (keyedCreate st9.alertRules (alertRuleKey rg memSpec.name) memSpec) }
  let httpSpec := http5xxAlertSpec p webApp.id actionGroup.id
  let tr11 := tr10 ++ [Call.metricsAlertCreate httpSpec]
  if fail 11 then
    errOutcome Status.PartialFailure (some logAnalytics.id)
      (some appInsights.connectionString) (some actionGroup.id)
      [cpuSpec.name, memSpec.name]
      "http5xx metrics alert create failed" st10 tr11
  else
  let st11 := { st10 with alertRules :=
    (keyedCreate st10.alertRules (alertRuleKey rg httpSpec.name) httpSpec) }
  let rtSpec := responseTimeAlertSpec p webApp.id actionGroup.id
  let tr12 := tr11 ++ [Call.metricsAlertCreate rtSpec]
  if fail 12 then
    errOutcome Status.PartialFailure (some logAnalytics.id)
      (some appInsights.connectionString) (some actionGroup.id)
      [cpuSpec.name, memSpec.name, httpSpec.name]
      "response time metrics alert create failed" st11 tr12
  else
  let st12 := { st11 with alertRules :=
    (keyedCreate st11.alertRules (alertRuleKey rg rtSpec.name) rtSpec) }
  let diag := mkDiagSetting p webApp.id logAnalytics.id
  let tr13 := tr12 ++ [Call.diagnosticSettingsCreate diag]
  if fail 13 then
    errOutcome Status.PartialFailure (some logAnalytics.id)
      (some appInsights.connectionString) (some actionGroup.id)
      [cpuSpec.name, memSpec.name, httpSpec.name, rtSpec.name]
      "diagnostic-settings create failed" st12 tr13
  else
  let st13 := { st12 with diagSettings :=
    (keyedReplace st12.diagSettings (diagSettingKey webApp.id diag.name) diag) }
  { result := { status := Status.Success
                exitCode := 0
                workspaceId := some logAnalytics.id
                connectionString := some appInsights.connectionString
                actionGroupId := some actionGroup.id
                alertRuleNames := [cpuSpec.name, memSpec.name, httpSpec.name, rtSpec.name]
                errorMessage := none }
    state := st13, trace := tr13 }

/-- The metric-alert create calls of a trace, in order. -/
def alertCreates (tr : List Call) : List AlertRuleSpec :=
  tr.filterMap fun c =>
    match c with
    | Call.metricsAlertCreate s => some s
    | _ => none

/-- The diagnostic-settings create calls of a trace, in order. -/
def diagCreates (tr : List Call) : List DiagSetting :=
  tr.filterMap fun c =>
    match c with
    | Call.diagnosticSettingsCreate d => some d
    | _ => none

/-! ## Closed form of a fully successful run -/

/-- The workspace found-or-created in step 2 (its descriptor as returned by
the show call after the create call). -/
def wsGot (p : Params) (st : CloudState) : Workspace :=
  (st.workspaces.find?
    (wsKey p.resourceGroupName (deriveNames p.webAppName).workspaceName)).getD
    (mkWorkspace p.resourceGroupName (deriveNames p.webAppName).workspaceName p.location 30)

/-- The telemetry component found-or-created in step 3. -/
def aiGot (p : Params) (st : CloudState) : AppInsights :=
  (st.appInsights.find?
    (aiKey p.resourceGroupName (deriveNames p.webAppName).telemetryName)).getD
    (mkAppInsights p.resourceGroupName (deriveNames p.webAppName).telemetryName p.location
      (wsGot p st).id)

/-- The notification group found-or-created in step 5. -/
def agGot (p : Params) (st : CloudState) : ActionGroup :=
  (st.actionGroups.find?
    (agKey p.resourceGroupName (deriveNames p.webAppName).notificationGroupName)).getD
    (mkActionGroup p.resourceGroupName (deriveNames p.webAppName).notificationGroupName
      "AppAlerts" "AdminEmail" p.alertEmailAddress)

/-- The cloud state after a fully successful run. -/
def successState (p : Params) (st : CloudState) (w : WebApp) : CloudState :=
  { st with
    workspaces :=
      (keyedCreate st.workspaces
        (wsKey p.resourceGroupName (deriveNames p.webAppName).workspaceName)
        (mkWorkspace p.resourceGroupName (deriveNames p.webAppName).workspaceName
          p.location 30))
    appInsights :=
      (keyedCreate st.appInsights
        (aiKey p.resourceGroupName (deriveNames p.webAppName).telemetryName)
        (mkAppInsights p.resourceGroupName (deriveNames p.webAppName).telemetryName
          p.location (wsGot p st).id))
    appSettings :=
      (applySettings p.resourceGroupName p.webAppName st.appSettings
        (appInsightsSettings (aiGot p st).connectionString))
    actionGroups :=
      (keyedCreate st.actionGroups
        (agKey p.resourceGroupName (deriveNames p.webAppName).notificationGroupName)
        (mkActionGroup p.resourceGroupName (deriveNames p.webAppName).notificationGroupName
          "AppAlerts" "AdminEmail" p.alertEmailAddress))
    alertRules :=
      (keyedCreate
        (keyedCreate
          (keyedCreate
            (keyedCreate st.alertRules
              (alertRuleKey p.resourceGroupName (cpuAlertSpec p w.appServicePlanId (agGot p st).id).name)
              (cpuAlertSpec p w.appServicePlanId (agGot p st).id))
            (alertRuleKey p.resourceGroupName (memoryAlertSpec p w.appServicePlanId (agGot p st).id).name)
            (memoryAlertSpec p w.appServicePlanId (agGot p st).id))
          (alertRuleKey p.resourceGroupName (http5xxAlertSpec p w.id (agGot p st).id).name)
          (http5xxAlertSpec p w.id (agGot p st).id))
        (alertRuleKey p.resourceGroupName (responseTimeAlertSpec p w.id (agGot p st).id).name)
        (responseTimeAlertSpec p w.id (agGot p st).id))
    diagSettings :=
      (keyedReplace st.diagSettings
        (diagSettingKey w.id (mkDiagSetting p w.id (wsGot p st).id).name)
        (mkDiagSetting p w.id (wsGot p st).id)) }

/-- The result of a fully successful run. -/
def successResult (p : Params) (st : CloudState) : RunResult :=
  { status := Status.Success
    exitCode := 0
    workspaceId := some (wsGot p st).id
    connectionString := some (aiGot p st).connectionString
    actionGroupId := some (agGot p st).id
    alertRuleNames :=
      ["alert-cpu-high-" ++ p.webAppName, "alert-memory-high-" ++ p.webAppName,
       "alert-http5xx-" ++ p.webAppName, "alert-response-time-" ++ p.webAppName]
    errorMessage := none }

/-- The trace of a fully successful run: the 14 remote calls in order. -/
def successTrace (p : Params) (st : CloudState) (w : WebApp) : List Call :=
  [Call.accountShow,
   Call.webAppShow p.resourceGroupName p.webAppName,
   Call.workspaceCreate p.resourceGroupName (deriveNames p.webAppName).workspaceName p.location 30,
   Call.workspaceShow p.resourceGroupName (deriveNames p.webAppName).workspaceName,
   Call.appInsightsCreate p.resourceGroupName (deriveNames p.webAppName).telemetryName p.location
     (wsGot p st).id,
   Call.appInsightsShow p.resourceGroupName (deriveNames p.webAppName).telemetryName,
   Call.appSettingsSet p.resourceGroupName p.webAppName
     (appInsightsSettings (aiGot p st).connectionString),
   Call.actionGroupCreate p.resourceGroupName (deriveNames p.webAppName).notificationGroupName
     "AppAlerts" "AdminEmail" p.alertEmailAddress,
   Call.actionGroupShow p.resourceGroupName (deriveNames p.webAppName).notificationGroupName,
   Call.metricsAlertCreate (cpuAlertSpec p w.appServicePlanId (agGot p st).id),
   Call.metricsAlertCreate (memoryAlertSpec p w.appServicePlanId (agGot p st).id),
   Call.metricsAlertCreate (http5xxAlertSpec p w.id (agGot p st).id),
   Call.metricsAlertCreate (responseTimeAlertSpec p w.id (agGot p st).id),
   Call.diagnosticSettingsCreate (mkDiagSetting p w.id (wsGot p st).id)]

theorem wsKey_mkWorkspace (rg n loc : String) (r : Nat) :
    wsKey rg n (mkWorkspace rg n loc r) = true := by
  simp [wsKey, mkWorkspace]

theorem aiKey_mkAppInsights (rg n loc wsId : String) :
    aiKey rg n (mkAppInsights rg n loc wsId) = true := by
  simp [aiKey, mkAppInsights]

theorem agKey_mkActionGroup (rg n s rn e : String) :
    agKey rg n (mkActionGroup rg n s rn e) = true := by
  simp [agKey, mkActionGroup]

/-- Under the no-failure oracle, with the preconditions satisfied, the run
reaches the end and produces the closed-form success outcome. -/
theorem run_noFail_eq (p : Params) (st : CloudState) (a : Account) (w : WebApp)
    (hacc : st.account = some a)
    (hw : findWebApp st p.resourceGroupName p.webAppName = some w) :
    run p st noFail =
      { result := successResult p st
        state := successState p st w
        trace := successTrace p st w } := by
  have hws := find?_keyedCreate st.workspaces
    (wsKey p.resourceGroupName (deriveNames p.webAppName).workspaceName)
    (mkWorkspace p.resourceGroupName (deriveNames p.webAppName).workspaceName p.location 30)
    (wsKey_mkWorkspace _ _ _ _)
  have hai := find?_keyedCreate st.appInsights
    (aiKey p.resourceGroupName (deriveNames p.webAppName).telemetryName)
    (mkAppInsights p.resourceGroupName (deriveNames p.webAppName).telemetryName p.location
      (wsGot p st).id)
    (aiKey_mkAppInsights _ _ _ _)
  have hag := find?_keyedCreate st.actionGroups
    (agKey p.resourceGroupName (deriveNames p.webAppName).notificationGroupName)
    (mkActionGroup p.resourceGroupName (deriveNames p.webAppName).notificationGroupName
      "AppAlerts" "AdminEmail" p.alertEmailAddress)
    (agKey_mkActionGroup _ _ _ _ _)
  simp only [wsGot] at hai
  simp only [run, noFail, Bool.false_eq_true, if_false, ite_false, hacc, hw]
  simp only [hws]
  simp only [hai]
  simp only [hag]
  simp [successResult, successState, successTrace, wsGot, aiGot, agGot,
    cpuAlertSpec, memoryAlertSpec, http5xxAlertSpec, responseTimeAlertSpec, hacc]

/-- Inversion: a run can only report `Success` when the account is logged in,
the target application exists, and no remote call failed — in which case the
run coincides with the no-failure run. -/
theorem run_success_char (p : Params) (st : CloudState) (fail : Nat → Bool)
    (h : (run p st fail).result.status = Status.Success) :
    (∃ a, st.account = some a) ∧
      (∃ w, findWebApp st p.resourceGroupName p.webAppName = some w) ∧
      run p st fail = run p st noFail := by
  have hws := find?_keyedCreate st.workspaces
    (wsKey p.resourceGroupName (deriveNames p.webAppName).workspaceName)
    (mkWorkspace p.resourceGroupName (deriveNames p.webAppName).workspaceName p.location 30)
    (wsKey_mkWorkspace _ _ _ _)
  have hai := find?_keyedCreate st.appInsights
    (aiKey p.resourceGroupName (deriveNames p.webAppName).telemetryName)
    (mkAppInsights p.resourceGroupName (deriveNames p.webAppName).telemetryName p.location
      (wsGot p st).id)
    (aiKey_mkAppInsights _ _ _ _)
  have hag := find?_keyedCreate st.actionGroups
    (agKey p.resourceGroupName (deriveNames p.webAppName).notificationGroupName)
    (mkActionGroup p.resourceGroupName (deriveNames p.webAppName).notificationGroupName
      "AppAlerts" "AdminEmail" p.alertEmailAddress)
    (agKey_mkActionGroup _ _ _ _ _)
  simp only [wsGot] at hai
  cases hf0 : fail 0 with
  | true => simp [run, hf0, errOutcome] at h
  | false =>
  cases hacc : st.account with
  | none => simp [run, hf0, hacc, errOutcome] at h
  | some a =>
  cases hf1 : fail 1 with
  | true => simp [run, hf0, hacc, hf1, errOutcome] at h
  | false =>
  cases hw : findWebApp st p.resourceGroupName p.webAppName with
  | none => simp [run, hf0, hacc, hf1, hw, errOutcome] at h
  | some w =>
  cases hf2 : fail 2 with
  | true => simp [run, hf0, hacc, hf1, hw, hf2, errOutcome] at h
  | false =>
  cases hf3 : fail 3 with
  | true => simp [run, hf0, hacc, hf1, hw, hf2, hf3, errOutcome] at h
  | false =>
  cases hf4 : fail 4 with
  | true => simp [run, hf0, hacc, hf1, hw, hf2, hf3, hf4, hws, errOutcome] at h
  | false =>
  cases hf5 : fail 5 with
  | true => simp [run, hf0, hacc, hf1, hw, hf2, hf3, hf4, hf5, hws, errOutcome] at h
  | false =>
  cases hf6 : fail 6 with
  | true =>
    simp [run, hf0, hacc, hf1, hw, hf2, hf3, hf4, hf5, hf6, hws, hai, errOutcome] at h
  | false =>
  cases hf7 : fail 7 with
  | true =>
    simp [run, hf0, hacc, hf1, hw, hf2, hf3, hf4, hf5, hf6, hf7, hws, hai, errOutcome] at h
  | false =>
  cases hf8 : fail 8 with
  | true =>
    simp [run, hf0, hacc, hf1, hw, hf2, hf3, hf4, hf5, hf6, hf7, hf8, hws, hai,
      errOutcome] at h
  | false =>
  cases hf9 : fail 9 with
  | true =>
    simp [run, hf0, hacc, hf1, hw, hf2, hf3, hf4, hf5, hf6, hf7, hf8, hf9, hws, hai, hag,
      errOutcome] at h
  | false =>
  cases hf10 : fail 10 with
  | true =>
    simp [run, hf0, hacc, hf1, hw, hf2, hf3, hf4, hf5, hf6, hf7, hf8, hf9, hf10, hws, hai,
      hag, errOutcome] at h
  | false =>
  cases hf11 : fail 11 with
  | true =>
    simp [run, hf0, hacc, hf1, hw, hf2, hf3, hf4, hf5, hf6, hf7, hf8, hf9, hf10, hf11, hws,
      hai, hag, errOutcome] at h
  | false =>
  cases hf12 : fail 12 with
  | true =>
    simp [run, hf0, hacc, hf1, hw, hf2, hf3, hf4, hf5, hf6, hf7, hf8, hf9, hf10, hf11, hf12,
      hws, hai, hag, errOutcome] at h
  | false =>
  cases hf13 : fail 13 with
  | true =>
    simp [run, hf0, hacc, hf1, hw, hf2, hf3, hf4, hf5, hf6, hf7, hf8, hf9, hf10, hf11, hf12,
      hf13, hws, hai, hag, errOutcome] at h
  | false =>
  refine ⟨⟨a, rfl⟩, ⟨w, rfl⟩, ?_⟩
  simp only [run, noFail, hf0, hf1, hf2, hf3, hf4, hf5, hf6, hf7, hf8, hf9, hf10, hf11,
    hf12, hf13, Bool.false_eq_true, if_false, ite_false]

/-! ## Idempotence of a second no-failure run -/

theorem keyedCreate_of_isSome (l : List α) (k : α → Bool) (new : α)
    (h : (l.find? k).isSome) : keyedCreate l k new = l := by
  unfold keyedCreate
  cases hf : l.find? k with
  | some x => rfl
  | none => rw [hf] at h; simp at h

theorem keyedCreate_idem (l : List α) (k : α → Bool) (new : α) (hk : k new = true) :
    keyedCreate (keyedCreate l k new) k new = keyedCreate l k new :=
  keyedCreate_of_found _ _ _ _ (find?_keyedCreate l k new hk)

theorem successState_account (p : Params) (st : CloudState) (w : WebApp) :
    (successState p st w).account = st.account := rfl

theorem findWebApp_successState (p : Params) (st : CloudState) (w : WebApp) (rg n : String) :
    findWebApp (successState p st w) rg n = findWebApp st rg n := rfl

theorem wsGot_successState (p : Params) (st : CloudState) (w : WebApp) :
    wsGot p (successState p st w) = wsGot p st := by
  show ((keyedCreate st.workspaces
      (wsKey p.resourceGroupName (deriveNames p.webAppName).workspaceName)
      (mkWorkspace p.resourceGroupName (deriveNames p.webAppName).workspaceName
        p.location 30)).find?
    (wsKey p.resourceGroupName (deriveNames p.webAppName).workspaceName)).getD _ = wsGot p st
  rw [find?_keyedCreate _ _ _ (wsKey_mkWorkspace _ _ _ _)]
  rfl

theorem aiGot_successState (p : Params) (st : CloudState) (w : WebApp) :
    aiGot p (successState p st w) = aiGot p st := by
  show ((keyedCreate st.appInsights
      (aiKey p.resourceGroupName (deriveNames p.webAppName).telemetryName)
      (mkAppInsights p.resourceGroupName (deriveNames p.webAppName).telemetryName
        p.location (wsGot p st).id)).find?
    (aiKey p.resourceGroupName (deriveNames p.webAppName).telemetryName)).getD _ = aiGot p st
  rw [find?_keyedCreate _ _ _ (aiKey_mkAppInsights _ _ _ _)]
  rfl

theorem agGot_successState (p : Params) (st : CloudState) (w : WebApp) :
    agGot p (successState p st w) = agGot p st := by
  show ((keyedCreate st.actionGroups
      (agKey p.resourceGroupName (deriveNames p.webAppName).notificationGroupName)
      (mkActionGroup p.resourceGroupName (deriveNames p.webAppName).notificationGroupName
        "AppAlerts" "AdminEmail" p.alertEmailAddress)).find?
    (agKey p.resourceGroupName (deriveNames p.webAppName).notificationGroupName)).getD _
      = agGot p st
  rw [find?_keyedCreate _ _ _ (agKey_mkActionGroup _ _ _ _ _)]
  rfl

theorem applySettings_ai_idem (l : List Setting) (rg app cs : String) :
    applySettings rg app (applySettings rg app l (appInsightsSettings cs))
      (appInsightsSettings cs) = applySettings rg app l (appInsightsSettings cs) := by
  have hne21 : (("ApplicationInsightsAgent_EXTENSION_VERSION" : String) ==
      "APPLICATIONINSIGHTS_CONNECTION_STRING") = false := by decide
  have hne31 : (("XDT_MicrosoftApplicationInsights_Mode" : String) ==
      "APPLICATIONINSIGHTS_CONNECTION_STRING") = false := by decide
  have hne32 : (("XDT_MicrosoftApplicationInsights_Mode" : String) ==
      "ApplicationInsightsAgent_EXTENSION_VERSION") = false := by decide
  simp only [appInsightsSettings, applySettings]
  set L1 := setAppSetting l rg app "APPLICATIONINSIGHTS_CONNECTION_STRING" cs with hL1
  set L2 := setAppSetting L1 rg app "ApplicationInsightsAgent_EXTENSION_VERSION" "~3" with hL2
  set L3 := setAppSetting L2 rg app "XDT_MicrosoftApplicationInsights_Mode" "Recommended"
    with hL3
  have g1 : getAppSetting L3 rg app "APPLICATIONINSIGHTS_CONNECTION_STRING" = some cs := by
    rw [hL3, getAppSetting_set_ne _ _ _ _ _ _ hne31, hL2,
      getAppSetting_set_ne _ _ _ _ _ _ hne21, hL1, getAppSetting_set_same]
  have e1 : setAppSetting L3 rg app "APPLICATIONINSIGHTS_CONNECTION_STRING" cs = L3 :=
    setAppSetting_of_get_eq _ _ _ _ _ g1
  have g2 : getAppSetting L3 rg app "ApplicationInsightsAgent_EXTENSION_VERSION" =
      some "~3" := by
    rw [hL3, getAppSetting_set_ne _ _ _ _ _ _ hne32, hL2, getAppSetting_set_same]
  have e2 : setAppSetting L3 rg app "ApplicationInsightsAgent_EXTENSION_VERSION" "~3" = L3 :=
    setAppSetting_of_get_eq _ _ _ _ _ g2
  have g3 : getAppSetting L3 rg app "XDT_MicrosoftApplicationInsights_Mode" =
      some "Recommended" := by
    rw [hL3, getAppSetting_set_same]
  have e3 : setAppSetting L3 rg app "XDT_MicrosoftApplicationInsights_Mode" "Recommended"
      = L3 := setAppSetting_of_get_eq _ _ _ _ _ g3
  rw [e1, e2, e3]

theorem keyedCreate_chain4_idem (R : List α) (k1 k2 k3 k4 : α → Bool) (s1 s2 s3 s4 : α)
    (h1 : k1 s1 = true) (h2 : k2 s2 = true) (h3 : k3 s3 = true) (h4 : k4 s4 = true) :
    keyedCreate (keyedCreate (keyedCreate (keyedCreate
        (keyedCreate (keyedCreate (keyedCreate (keyedCreate R k1 s1) k2 s2) k3 s3) k4 s4)
        k1 s1) k2 s2) k3 s3) k4 s4 =
      keyedCreate (keyedCreate (keyedCreate (keyedCreate R k1 s1) k2 s2) k3 s3) k4 s4 := by
  have i1 : ((keyedCreate R k1 s1).find? k1).isSome := by
    rw [find?_keyedCreate R k1 s1 h1]; rfl
  have i2 : ((keyedCreate (keyedCreate R k1 s1) k2 s2).find? k2).isSome := by
    rw [find?_keyedCreate _ k2 s2 h2]; rfl
  have i3 : ((keyedCreate (keyedCreate (keyedCreate R k1 s1) k2 s2) k3 s3).find? k3).isSome := by
    rw [find?_keyedCreate _ k3 s3 h3]; rfl
  have i4 : ((keyedCreate (keyedCreate (keyedCreate (keyedCreate R k1 s1) k2 s2) k3 s3)
      k4 s4).find? k4).isSome := by
    rw [find?_keyedCreate _ k4 s4 h4]; rfl
  have m1a := find?_isSome_keyedCreate_mono _ k1 k2 s2 i1
  have m1b := find?_isSome_keyedCreate_mono _ k1 k3 s3 m1a
  have m1c := find?_isSome_keyedCreate_mono _ k1 k4 s4 m1b
  have e1 := keyedCreate_of_isSome _ k1 s1 m1c
  have m2a := find?_isSome_keyedCreate_mono _ k2 k3 s3 i2
  have m2b := find?_isSome_keyedCreate_mono _ k2 k4 s4 m2a
  have e2 := keyedCreate_of_isSome _ k2 s2 m2b
  have m3a := find?_isSome_keyedCreate_mono _ k3 k4 s4 i3
  have e3 := keyedCreate_of_isSome _ k3 s3 m3a
  have e4 := keyedCreate_of_isSome _ k4 s4 i4
  rw [e1, e2, e3, e4]

theorem CloudState.ext' (s t : CloudState)
    (h1 : s.account = t.account) (h2 : s.webApps = t.webApps)
    (h3 : s.workspaces = t.workspaces) (h4 : s.appInsights = t.appInsights)
    (h5 : s.appSettings = t.appSettings) (h6 : s.actionGroups = t.actionGroups)
    (h7 : s.alertRules = t.alertRules) (h8 : s.diagSettings = t.diagSettings) : s = t := by
  cases s
  cases t
  simp_all

/-! Abbreviations for the values and keys used by the workflow's create calls
(each is definitionally equal to the corresponding term inside `run`). -/

def wsKeyOf (p : Params) : Workspace → Bool :=
  wsKey p.resourceGroupName (deriveNames p.webAppName).workspaceName

def wsNew (p : Params) : Workspace :=
  mkWorkspace p.resourceGroupName (deriveNames p.webAppName).workspaceName p.location 30

def aiKeyOf (p : Params) : AppInsights → Bool :=
  aiKey p.resourceGroupName (deriveNames p.webAppName).telemetryName

def aiNew (p : Params) (st : CloudState) : AppInsights :=
  mkAppInsights p.resourceGroupName (deriveNames p.webAppName).telemetryName p.location
    (wsGot p st).id

def agKeyOf (p : Params) : ActionGroup → Bool :=
  agKey p.resourceGroupName (deriveNames p.webAppName).notificationGroupName

def agNew (p : Params) : ActionGroup :=
  mkActionGroup p.resourceGroupName (deriveNames p.webAppName).notificationGroupName
    "AppAlerts" "AdminEmail" p.alertEmailAddress

def cpuKeyOf (p : Params) : AlertRuleSpec → Bool :=
  alertRuleKey p.resourceGroupName ("alert-cpu-high-" ++ p.webAppName)

def memKeyOf (p : Params) : AlertRuleSpec → Bool :=
  alertRuleKey p.resourceGroupName ("alert-memory-high-" ++ p.webAppName)

def httpKeyOf (p : Params) : AlertRuleSpec → Bool :=
  alertRuleKey p.resourceGroupName ("alert-http5xx-" ++ p.webAppName)

def rtKeyOf (p : Params) : AlertRuleSpec → Bool :=
  alertRuleKey p.resourceGroupName ("alert-response-time-" ++ p.webAppName)

def cpuSpecOf (p : Params) (st : CloudState) (w : WebApp) : AlertRuleSpec :=
  cpuAlertSpec p w.appServicePlanId (agGot p st).id

def memSpecOf (p : Params) (st : CloudState) (w : WebApp) : AlertRuleSpec :=
  memoryAlertSpec p w.appServicePlanId (agGot p st).id

def httpSpecOf (p : Params) (st : CloudState) (w : WebApp) : AlertRuleSpec :=
  http5xxAlertSpec p w.id (agGot p st).id

def rtSpecOf (p : Params) (st : CloudState) (w : WebApp) : AlertRuleSpec :=
  responseTimeAlertSpec p w.id (agGot p st).id

def diagKeyOf (p : Params) (w : WebApp) : DiagSetting → Bool :=
  diagSettingKey w.id ("diag-" ++ p.webAppName)

def diagNew (p : Params) (st : CloudState) (w : WebApp) : DiagSetting :=
  mkDiagSetting p w.id (wsGot p st).id

theorem aiNew_successState (p : Params) (st : CloudState) (w : WebApp) :
    aiNew p (successState p st w) = aiNew p st := by
  unfold aiNew
  rw [wsGot_successState]

theorem cpuSpecOf_successState (p : Params) (st : CloudState) (w : WebApp) :
    cpuSpecOf p (successState p st w) w = cpuSpecOf p st w := by
  unfold cpuSpecOf
  rw [agGot_successState]

theorem memSpecOf_successState (p : Params) (st : CloudState) (w : WebApp) :
    memSpecOf p (successState p st w) w = memSpecOf p st w := by
  unfold memSpecOf
  rw [agGot_successState]

theorem httpSpecOf_successState (p : Params) (st : CloudState) (w : WebApp) :
    httpSpecOf p (successState p st w) w = httpSpecOf p st w := by
  unfold httpSpecOf
  rw [agGot_successState]

theorem rtSpecOf_successState (p : Params) (st : CloudState) (w : WebApp) :
    rtSpecOf p (successState p st w) w = rtSpecOf p st w := by
  unfold rtSpecOf
  rw [agGot_successState]

theorem diagNew_successState (p : Params) (st : CloudState) (w : WebApp) :
    diagNew p (successState p st w) w = diagNew p st w := by
  unfold diagNew
  rw [wsGot_successState]

/-- A second fully successful run leaves the cloud state unchanged: every
create resolves by finding the resource of the first run. -/
theorem successState_idem (p : Params) (st : CloudState) (w : WebApp) :
    successState p (successState p st w) w = successState p st w := by
  apply CloudState.ext'
  · rfl
  · rfl
  · show keyedCreate (keyedCreate st.workspaces (wsKeyOf p) (wsNew p)) (wsKeyOf p) (wsNew p)
      = keyedCreate st.workspaces (wsKeyOf p) (wsNew p)
    exact keyedCreate_idem _ _ _ (wsKey_mkWorkspace _ _ _ _)
  · show keyedCreate (keyedCreate st.appInsights (aiKeyOf p) (aiNew p st)) (aiKeyOf p)
        (aiNew p (successState p st w))
      = keyedCreate st.appInsights (aiKeyOf p) (aiNew p st)
    rw [aiNew_successState]
    exact keyedCreate_idem _ _ _ (aiKey_mkAppInsights _ _ _ _)
  · show applySettings p.resourceGroupName p.webAppName
        (applySettings p.resourceGroupName p.webAppName st.appSettings
          (appInsightsSettings (aiGot p st).connectionString))
        (appInsightsSettings (aiGot p (successState p st w)).connectionString)
      = applySettings p.resourceGroupName p.webAppName st.appSettings
          (appInsightsSettings (aiGot p st).connectionString)
    rw [aiGot_successState]
    exact applySettings_ai_idem _ _ _ _
  · show keyedCreate (keyedCreate st.actionGroups (agKeyOf p) (agNew p)) (agKeyOf p) (agNew p)
      = keyedCreate st.actionGroups (agKeyOf p) (agNew p)
    exact keyedCreate_idem _ _ _ (agKey_mkActionGroup _ _ _ _ _)
  · show keyedCreate (keyedCreate (keyedCreate (keyedCreate
        (keyedCreate (keyedCreate (keyedCreate (keyedCreate st.alertRules
          (cpuKeyOf p) (cpuSpecOf p st w)) (memKeyOf p) (memSpecOf p st w))
          (httpKeyOf p) (httpSpecOf p st w)) (rtKeyOf p) (rtSpecOf p st w))
        (cpuKeyOf p) (cpuSpecOf p (successState p st w) w))
        (memKeyOf p) (memSpecOf p (successState p st w) w))
        (httpKeyOf p) (httpSpecOf p (successState p st w) w))
        (rtKeyOf p) (rtSpecOf p (successState p st w) w)
      = keyedCreate (keyedCreate (keyedCreate (keyedCreate st.alertRules
          (cpuKeyOf p) (cpuSpecOf p st w)) (memKeyOf p) (memSpecOf p st w))
          (httpKeyOf p) (httpSpecOf p st w)) (rtKeyOf p) (rtSpecOf p st w)
    rw [cpuSpecOf_successState, memSpecOf_successState, httpSpecOf_successState,
      rtSpecOf_successState]
    exact keyedCreate_chain4_idem _ _ _ _ _ _ _ _ _
      (by simp [cpuKeyOf, alertRuleKey, cpuSpecOf, cpuAlertSpec])
      (by simp [memKeyOf, alertRuleKey, memSpecOf, memoryAlertSpec])
      (by simp [httpKeyOf, alertRuleKey, httpSpecOf, http5xxAlertSpec])
      (by simp [rtKeyOf, alertRuleKey, rtSpecOf, responseTimeAlertSpec])
  · show keyedReplace (keyedReplace st.diagSettings (diagKeyOf p w) (diagNew p st w))
        (diagKeyOf p w) (diagNew p (successState p st w) w)
      = keyedReplace st.diagSettings (diagKeyOf p w) (diagNew p st w)
    rw [diagNew_successState]
    exact keyedReplace_idem _ _ _ (by simp [diagKeyOf, diagSettingKey, diagNew, mkDiagSetting])

/-! ## Concrete inputs used as witnesses -/

def exampleWebApp : WebApp :=
  { id := "/resourceGroups/rg/providers/Microsoft.Web/sites/app"
    appServicePlanId := "/resourceGroups/rg/providers/Microsoft.Web/serverfarms/plan" }

def exampleState : CloudState :=
  { account := some { name := "sub" }
    webApps := [{ rg := "rg", name := "app", app := exampleWebApp }]
    workspaces := []
    appInsights := []
    appSettings := []
    actionGroups := []
    alertRules := []
    diagSettings := [] }

def exampleParams : Params :=
  { resourceGroupName := "rg", webAppName := "app", location := "eastus"
    alertEmailAddress := "admin@example.com" }

def exampleStateLoggedOut : CloudState :=
  { exampleState with account := none }

/-- C6: the naming resolver is a deterministic pure function and is injective:
equal application names give identical derived names, and distinct
application names give distinct derived name records. -/
theorem deriveNames_deterministic_injective (a b : String) :
    deriveNames a = deriveNames a ∧
    (a = b → deriveNames a = deriveNames b) ∧
    (a ≠ b → deriveNames a ≠ deriveNames b) := by
  refine ⟨rfl, fun h => by rw [h], fun hne hEq => hne ?_⟩
  have h1 : "log-" ++ a = "log-" ++ b := congrArg DerivedNames.workspaceName hEq
  have h2 : ("log-" ++ a).data = ("log-" ++ b).data := congrArg String.data h1
  rw [String.data_append, String.data_append] at h2
  exact String.ext (List.append_cancel_left h2)

/-- Witness for C6 at the concrete pair of names `app-a`, `app-b`. -/
theorem deriveNames_deterministic_injective_witness :
    ("app-a" : String) ≠ "app-b" ∧ deriveNames "app-a" ≠ deriveNames "app-b" :=
  ⟨by decide, (deriveNames_deterministic_injective "app-a" "app-b").2.2 (by decide)⟩

/-! ## The demo HTTP server request handler (src/index.js lines 5–43) -/

/-- An HTTP response: status code, content type and body. -/
structure HttpResponse where
  status : Nat
  contentType : String
  body : String
deriving DecidableEq

/-- The JSON body of the health endpoint:
`JSON.stringify` of a record with fields `status` (always `healthy`) and
`timestamp`. -/
def healthBody (timestamp : String) : String :=
  "\x7b\"status\":\"healthy\",\"timestamp\":\"" ++ timestamp ++ "\"\x7d"

/-- The JSON body returned for unknown routes. -/
def notFoundBody : String := "\x7b\"error\":\"Not Found\"\x7d"

/-- The display value of the environment: `process.env.NODE_ENV` when the
variable is set and non-empty (the JavaScript source applies `||`), else
`development`. -/
def envDisplay : Option String → String
  | some e => if e = "" then "development" else e
  | none => "development"

/-- The HTML template of the root route, interpolating the server time, the
Node version and the environment display value. -/
def homePage (timestamp nodeVersion envText : String) : String :=
  "\n      <!DOCTYPE html>\n      <html>\n        <head>\n          <title>DevOps Test App</title>\n"
    ++ "          <style>\n            body \x7b font-family: Arial, sans-serif; max-width: 800px; margin: 50px auto; padding: 20px; \x7d\n"
    ++ "            h1 \x7b color: #0078d4; \x7d\n            .info \x7b background: #f0f0f0; padding: 15px; border-radius: 5px; \x7d\n"
    ++ "          </style>\n        </head>\n        <body>\n          <h1>🚀 DevOps Test App</h1>\n"
    ++ "          <p>Successfully deployed to Azure App Service!</p>\n          <div class=\"info\">\n"
    ++ "            <p><strong>Server Time:</strong> " ++ timestamp ++ "</p>\n"
    ++ "            <p><strong>Node Version:</strong> " ++ nodeVersion ++ "</p>\n"
    ++ "            <p><strong>Environment:</strong> " ++ envText ++ "</p>\n"
    ++ "          </div>\n        </body>\n      </html>\n    "

/-- The request handler: `/health` gets a 200 JSON health report, `/` gets
the 200 HTML page, and every other URL gets a 404 JSON error. -/
def handleRequest (url timestamp nodeVersion : String) (nodeEnv : Option String) :
    HttpResponse :=
  if url = "/health" then
    { status := 200, contentType := "application/json", body := healthBody timestamp }
  else if url = "/" then
    { status := 200, contentType := "text/html"
      body := homePage timestamp nodeVersion (envDisplay nodeEnv) }
  else
    { status := 404, contentType := "application/json", body := notFoundBody }

/-- C10: the request handler is total over the URL and partitions it into
exactly three cases: `/health` yields 200 with a JSON body whose `status`
field is `healthy`; `/` yields 200 with an HTML body; every other URL
yields 404 with the JSON body for `Not Found`; and the response status
depends only on the URL. -/
theorem handleRequest_partition (url timestamp nodeVersion : String) (nodeEnv : Option String) :
    (url = "/health" →
      handleRequest url timestamp nodeVersion nodeEnv =
        { status := 200, contentType := "application/json", body := healthBody timestamp } ∧
      ∃ rest, healthBody timestamp = "\x7b\"status\":\"healthy\",\"timestamp\":\"" ++ rest) ∧
    (url = "/" →
      (handleRequest url timestamp nodeVersion nodeEnv).status = 200 ∧
      (handleRequest url timestamp nodeVersion nodeEnv).contentType = "text/html" ∧
      (handleRequest url timestamp nodeVersion nodeEnv).body =
        homePage timestamp nodeVersion (envDisplay nodeEnv)) ∧
    (url ≠ "/health" → url ≠ "/" →
      handleRequest url timestamp nodeVersion nodeEnv =
        { status := 404, contentType := "application/json", body := notFoundBody }) ∧
    ((handleRequest url timestamp nodeVersion nodeEnv).status = 200 ∨
      (handleRequest url timestamp nodeVersion nodeEnv).status = 404) ∧
    (∀ ts2 nv2 env2, (handleRequest url ts2 nv2 env2).status =
      (handleRequest url timestamp nodeVersion nodeEnv).status) := by
  refine ⟨fun h => ⟨by simp [handleRequest, h], ?_⟩, fun h => ?_, fun h1 h2 => ?_, ?_, ?_⟩
  · exact ⟨timestamp ++ "\"\x7d", (String.append_assoc _ _ _)⟩
  · simp [handleRequest, h]
  · simp [handleRequest, h1, h2]
  · by_cases h1 : url = "/health"
    · simp [handleRequest, h1]
    · by_cases h2 : url = "/"
      · simp [handleRequest, h1, h2]
      · simp [handleRequest, h1, h2]
  · intro ts2 nv2 env2
    by_cases h1 : url = "/health"
    · simp [handleRequest, h1]
    · by_cases h2 : url = "/"
      · simp [handleRequest, h1, h2]
      · simp [handleRequest, h1, h2]

/-- Witness for C10: concrete evaluations for each of the three URL cases. -/
theorem handleRequest_partition_witness :
    ("/nope" : String) ≠ "/health" ∧ ("/nope" : String) ≠ "/" ∧
    handleRequest "/nope" "t" "v" none =
      { status := 404, contentType := "application/json", body := notFoundBody } ∧
    handleRequest "/health" "t" "v" none =
      { status := 200, contentType := "application/json", body := healthBody "t" } :=
  ⟨by decide, by decide,
    (handleRequest_partition "/nope" "t" "v" none).2.2.1 (by decide) (by decide),
    ((handleRequest_partition "/health" "t" "v" none).1 rfl).1⟩

/-! ## C9: email validation

The script body performs no syntactic validation of the email.  Before the
body runs, PowerShell binds the parameters: a `[Parameter(Mandatory = $true)]`
string parameter rejects an empty string at binding time, and that is the
only check an address ever receives.  `bindParams` models that binding step
(the script's `param` block, lines 30–43): it fails exactly when a mandatory
parameter is the empty string, and otherwise produces the `Params` record the
body runs with. -/

def bindParams (rg app loc email : String) : Option Params :=
  if rg = "" ∨ app = "" ∨ email = "" then none
  else some { resourceGroupName := rg, webAppName := app, location := loc
              alertEmailAddress := email }

def exampleParamsBadEmail : Params :=
  { resourceGroupName := "rg", webAppName := "app", location := "eastus"
    alertEmailAddress := "not-an-email" }

/-- C9 counterexample: the address `not-an-email` is non-empty, so the
mandatory-parameter binding accepts it, yet it is not a syntactically valid
email address — it does not even contain an at-sign.  The workflow does not
fail before any remote call on this input: it invokes all 14 remote calls
(12 of them create-or-fetch operations) and completes with `Success` and no
error. -/
theorem no_email_validation_counterexample :
    bindParams "rg" "app" "eastus" "not-an-email" = some exampleParamsBadEmail ∧
    '@' ∉ exampleParamsBadEmail.alertEmailAddress.data ∧
    (run exampleParamsBadEmail exampleState noFail).result.status = Status.Success ∧
    (run exampleParamsBadEmail exampleState noFail).result.errorMessage = none ∧
    (run exampleParamsBadEmail exampleState noFail).trace.length = 14 ∧
    (run exampleParamsBadEmail exampleState noFail).trace.any
      (fun c => c.isCreateOrFetch) = true := by
  refine ⟨by decide, by decide, ?_, ?_, ?_, ?_⟩ <;> decide

/-- C9 amended: the only check the notification email receives is the
mandatory-parameter binding, which rejects exactly the empty string before
the script body runs; no syntactic email validation exists beyond that.  For
every parameter set the binding accepts — however malformed the non-empty
address is — a run with satisfied preconditions and no provider failure
completes with `Success`, and the address is passed through unchanged as an
argument of the notification-group creation call. -/
theorem run_ignores_email_validity (rg app loc email : String) (p : Params)
    (hbind : bindParams rg app loc email = some p)
    (st : CloudState) (a : Account) (w : WebApp)
    (hacc : st.account = some a)
    (hw : findWebApp st p.resourceGroupName p.webAppName = some w) :
    p.alertEmailAddress = email ∧
    (run p st noFail).result.status = Status.Success ∧
    (run p st noFail).result.errorMessage = none ∧
    Call.actionGroupCreate p.resourceGroupName
        (deriveNames p.webAppName).notificationGroupName "AppAlerts" "AdminEmail"
        p.alertEmailAddress ∈ (run p st noFail).trace := by
  have hemail : p.alertEmailAddress = email := by
    unfold bindParams at hbind
    split at hbind
    · exact absurd hbind (by simp)
    · cases hbind
      rfl
  rw [run_noFail_eq p st a w hacc hw]
  refine ⟨hemail, rfl, rfl, ?_⟩
  simp [successTrace]

/-- Witness for the amended C9 at a concrete bindable, invalid email. -/
theorem run_ignores_email_validity_witness :
    bindParams "rg" "app" "eastus" "not-an-email" = some exampleParamsBadEmail ∧
    exampleState.account = some { name := "sub" } ∧
    findWebApp exampleState "rg" "app" = some exampleWebApp ∧
    (run exampleParamsBadEmail exampleState noFail).result.status = Status.Success :=
  ⟨by decide, rfl, by decide,
    (run_ignores_email_validity "rg" "app" "eastus" "not-an-email" exampleParamsBadEmail
      (by decide) exampleState { name := "sub" } exampleWebApp rfl (by decide)).2.1⟩

/-- C1: in every successful run the CPU and Memory alert rules are scoped to
the compute-plan identifier resolved from the target application descriptor,
while the HTTP-5xx and response-time rules are scoped to the application
resource identifier — and (whenever the two identifiers differ) never the
other way around. -/
theorem alert_rule_scoping (p : Params) (st : CloudState) (fail : Nat → Bool)
    (h : (run p st fail).result.status = Status.Success) :
    ∃ w, findWebApp st p.resourceGroupName p.webAppName = some w ∧
      (alertCreates (run p st fail).trace).map AlertRuleSpec.metric =
        ["CpuPercentage", "MemoryPercentage", "Http5xx", "HttpResponseTime"] ∧
      (∀ s ∈ alertCreates (run p st fail).trace,
        ((s.metric = "CpuPercentage" ∨ s.metric = "MemoryPercentage") →
          s.scopes = w.appServicePlanId) ∧
        ((s.metric = "Http5xx" ∨ s.metric = "HttpResponseTime") → s.scopes = w.id)) ∧
      (w.appServicePlanId ≠ w.id →
        ∀ s ∈ alertCreates (run p st fail).trace,
          ((s.metric = "CpuPercentage" ∨ s.metric = "MemoryPercentage") →
            s.scopes ≠ w.id) ∧
          ((s.metric = "Http5xx" ∨ s.metric = "HttpResponseTime") →
            s.scopes ≠ w.appServicePlanId)) := by
  obtain ⟨⟨a, hacc⟩, ⟨w, hw⟩, heq⟩ := run_success_char p st fail h
  refine ⟨w, hw, ?_, ?_, ?_⟩
  · rw [heq, run_noFail_eq p st a w hacc hw]
    simp [successTrace, alertCreates, cpuAlertSpec, memoryAlertSpec, http5xxAlertSpec,
      responseTimeAlertSpec]
  · rw [heq, run_noFail_eq p st a w hacc hw]
    intro s hs
    simp only [successTrace, alertCreates, List.filterMap_cons, List.filterMap_nil] at hs
    simp only [List.mem_cons, List.not_mem_nil, or_false] at hs
    rcases hs with rfl | rfl | rfl | rfl <;>
      simp [cpuAlertSpec, memoryAlertSpec, http5xxAlertSpec, responseTimeAlertSpec]
  · intro hne s hs
    rw [heq, run_noFail_eq p st a w hacc hw] at hs
    simp only [successTrace, alertCreates, List.filterMap_cons, List.filterMap_nil] at hs
    simp only [List.mem_cons, List.not_mem_nil, or_false] at hs
    rcases hs with rfl | rfl | rfl | rfl <;>
      simp [cpuAlertSpec, memoryAlertSpec, http5xxAlertSpec, responseTimeAlertSpec, hne,
        Ne.symm hne]

/-- Witness for C1: a concrete successful run. -/
theorem alert_rule_scoping_witness :
    (run exampleParams exampleState noFail).result.status = Status.Success ∧
    (∃ w, findWebApp exampleState "rg" "app" = some w ∧
      (alertCreates (run exampleParams exampleState noFail).trace).map
          AlertRuleSpec.metric =
        ["CpuPercentage", "MemoryPercentage", "Http5xx", "HttpResponseTime"] ∧
      (∀ s ∈ alertCreates (run exampleParams exampleState noFail).trace,
        ((s.metric = "CpuPercentage" ∨ s.metric = "MemoryPercentage") →
          s.scopes = w.appServicePlanId) ∧
        ((s.metric = "Http5xx" ∨ s.metric = "HttpResponseTime") → s.scopes = w.id)) ∧
      (w.appServicePlanId ≠ w.id →
        ∀ s ∈ alertCreates (run exampleParams exampleState noFail).trace,
          ((s.metric = "CpuPercentage" ∨ s.metric = "MemoryPercentage") →
            s.scopes ≠ w.id) ∧
          ((s.metric = "Http5xx" ∨ s.metric = "HttpResponseTime") →
            s.scopes ≠ w.appServicePlanId))) :=
  ⟨by decide, alert_rule_scoping exampleParams exampleState noFail (by decide)⟩

/-- C2: every successful run issues exactly four alert-rule create calls whose
parameters equal the fixed table — metric, aggregation, operator, threshold
and severity — each with a 5-minute window and 1-minute frequency, and each
attached to the notification group found-or-created in step 5. -/
theorem alert_rule_table (p : Params) (st : CloudState) (fail : Nat → Bool)
    (h : (run p st fail).result.status = Status.Success) :
    (alertCreates (run p st fail).trace).length = 4 ∧
    (alertCreates (run p st fail).trace).map
        (fun s => (s.metric, s.aggregation, s.op, s.threshold, s.severity)) =
      [("CpuPercentage", Agg.avg, ">", 80, 2), ("MemoryPercentage", Agg.avg, ">", 85, 2),
       ("Http5xx", Agg.total, ">", 10, 1), ("HttpResponseTime", Agg.avg, ">", 5, 3)] ∧
    (∀ s ∈ alertCreates (run p st fail).trace,
      s.windowMinutes = 5 ∧ s.frequencyMinutes = 1 ∧
        some s.action = (run p st fail).result.actionGroupId) ∧
    (run p st fail).result.actionGroupId = some (agGot p st).id := by
  obtain ⟨⟨a, hacc⟩, ⟨w, hw⟩, heq⟩ := run_success_char p st fail h
  rw [heq, run_noFail_eq p st a w hacc hw]
  refine ⟨?_, ?_, ?_, rfl⟩
  · simp [successTrace, alertCreates]
  · simp [successTrace, alertCreates, cpuAlertSpec, memoryAlertSpec, http5xxAlertSpec,
      responseTimeAlertSpec]
  · intro s hs
    simp only [successTrace, alertCreates, List.filterMap_cons, List.filterMap_nil] at hs
    simp only [List.mem_cons, List.not_mem_nil, or_false] at hs
    rcases hs with rfl | rfl | rfl | rfl <;>
      simp [cpuAlertSpec, memoryAlertSpec, http5xxAlertSpec, responseTimeAlertSpec,
        successResult]

/-- Witness for C2: the same concrete successful run. -/
theorem alert_rule_table_witness :
    (run exampleParams exampleState noFail).result.status = Status.Success ∧
    (alertCreates (run exampleParams exampleState noFail).trace).length = 4 :=
  ⟨by decide, (alert_rule_table exampleParams exampleState noFail (by decide)).1⟩

/-- C7: every successful run issues exactly one diagnostic-settings
create-or-replace call, for the three log categories plus all metrics,
targeting the application resource and the workspace of step 2; and
re-running the workflow produces no duplicate diagnostic settings. -/
theorem diagnostic_forwarding (p : Params) (st : CloudState) (fail : Nat → Bool)
    (h : (run p st fail).result.status = Status.Success) :
    ∃ w, findWebApp st p.resourceGroupName p.webAppName = some w ∧
      diagCreates (run p st fail).trace = [mkDiagSetting p w.id (wsGot p st).id] ∧
      (run p st fail).result.workspaceId = some (wsGot p st).id ∧
      (mkDiagSetting p w.id (wsGot p st).id).logs =
        [("AppServiceHTTPLogs", true), ("AppServiceConsoleLogs", true),
         ("AppServiceAppLogs", true)] ∧
      (mkDiagSetting p w.id (wsGot p st).id).metrics = [("AllMetrics", true)] ∧
      (run p ((run p st fail).state) noFail).state.diagSettings =
        (run p st fail).state.diagSettings := by
  obtain ⟨⟨a, hacc⟩, ⟨w, hw⟩, heq⟩ := run_success_char p st fail h
  have h1 := run_noFail_eq p st a w hacc hw
  have hacc1 : (successState p st w).account = some a := by
    rw [successState_account]; exact hacc
  have hw1 : findWebApp (successState p st w) p.resourceGroupName p.webAppName = some w := by
    rw [findWebApp_successState]; exact hw
  have h2 := run_noFail_eq p (successState p st w) a w hacc1 hw1
  refine ⟨w, hw, ?_, ?_, rfl, rfl, ?_⟩
  · rw [heq, h1]
    simp [successTrace, diagCreates]
  · rw [heq, h1]
    rfl
  · rw [heq, h1]
    show (run p (successState p st w) noFail).state.diagSettings =
      (successState p st w).diagSettings
    rw [h2]
    show (successState p (successState p st w) w).diagSettings =
      (successState p st w).diagSettings
    rw [successState_idem]

/-- Witness for C7: the concrete successful run. -/
theorem diagnostic_forwarding_witness :
    (run exampleParams exampleState noFail).result.status = Status.Success ∧
    (∃ w, findWebApp exampleState "rg" "app" = some w ∧
      diagCreates (run exampleParams exampleState noFail).trace =
        [mkDiagSetting exampleParams w.id (wsGot exampleParams exampleState).id]) := by
  have h := diagnostic_forwarding exampleParams exampleState noFail (by decide)
  obtain ⟨w, hw, hd, _⟩ := h
  exact ⟨by decide, ⟨w, hw, hd⟩⟩

/-- C3: when the precondition check fails — the caller is not authenticated
or the target application does not exist — the result status is `Failure`,
the exit code is non-zero, the cloud state is untouched, and no
create-or-fetch operation is invoked. -/
theorem precondition_failure_no_resources (p : Params) (st : CloudState) (fail : Nat → Bool)
    (h : st.account = none ∨ findWebApp st p.resourceGroupName p.webAppName = none) :
    (run p st fail).result.status = Status.Failure ∧
    (run p st fail).result.exitCode ≠ 0 ∧
    (run p st fail).state = st ∧
    (run p st fail).trace.all (fun c => !c.isCreateOrFetch) = true := by
  cases hf0 : fail 0 with
  | true => simp [run, hf0, errOutcome, Call.isCreateOrFetch]
  | false =>
    cases hacc : st.account with
    | none => simp [run, hf0, hacc, errOutcome, Call.isCreateOrFetch]
    | some a =>
      cases hf1 : fail 1 with
      | true => simp [run, hf0, hacc, hf1, errOutcome, Call.isCreateOrFetch]
      | false =>
        rcases h with hacc2 | hw
        · rw [hacc2] at hacc
          exact absurd hacc (by simp)
        · simp [run, hf0, hacc, hf1, hw, errOutcome, Call.isCreateOrFetch]

/-- Witness for C3: a run that is not logged into the cloud account. -/
theorem precondition_failure_no_resources_witness :
    (exampleStateLoggedOut.account = none ∨
      findWebApp exampleStateLoggedOut "rg" "app" = none) ∧
    (run exampleParams exampleStateLoggedOut noFail).result.status = Status.Failure ∧
    (run exampleParams exampleStateLoggedOut noFail).state = exampleStateLoggedOut :=
  ⟨Or.inl rfl,
    (precondition_failure_no_resources exampleParams exampleStateLoggedOut noFail
      (Or.inl rfl)).1,
    (precondition_failure_no_resources exampleParams exampleStateLoggedOut noFail
      (Or.inl rfl)).2.2.1⟩

/-- C4: when the notification-group creation (step 5, remote call 7) fails
after steps 2–4 succeeded, the result is a `PartialFailure` carrying the
workspace identifier from step 2 and the telemetry connection string from
step 3 but no notification-group identifier and no alert-rule names,
together with the failing step's error; the resources created by steps 2–3
remain in the cloud state (no rollback), and no alert rule or diagnostic
setting was touched. -/
theorem step5_failure_partial_result (p : Params) (st : CloudState) (a : Account) (w : WebApp)
    (hacc : st.account = some a)
    (hw : findWebApp st p.resourceGroupName p.webAppName = some w) :
    (run p st (failAt 7)).result.status = Status.PartialFailure ∧
    (run p st (failAt 7)).result.exitCode = 1 ∧
    (run p st (failAt 7)).result.workspaceId = some (wsGot p st).id ∧
    (run p st (failAt 7)).result.connectionString = some (aiGot p st).connectionString ∧
    (run p st (failAt 7)).result.actionGroupId = none ∧
    (run p st (failAt 7)).result.alertRuleNames = [] ∧
    (run p st (failAt 7)).result.errorMessage = some "action-group create failed" ∧
    (run p st (failAt 7)).state.workspaces.find? (wsKeyOf p) = some (wsGot p st) ∧
    (run p st (failAt 7)).state.appInsights.find? (aiKeyOf p) = some (aiGot p st) ∧
    (run p st (failAt 7)).state.actionGroups = st.actionGroups ∧
    (run p st (failAt 7)).state.alertRules = st.alertRules ∧
    (run p st (failAt 7)).state.diagSettings = st.diagSettings := by
  have hws := find?_keyedCreate st.workspaces
    (wsKey p.resourceGroupName (deriveNames p.webAppName).workspaceName)
    (mkWorkspace p.resourceGroupName (deriveNames p.webAppName).workspaceName p.location 30)
    (wsKey_mkWorkspace _ _ _ _)
  have hai := find?_keyedCreate st.appInsights
    (aiKey p.resourceGroupName (deriveNames p.webAppName).telemetryName)
    (mkAppInsights p.resourceGroupName (deriveNames p.webAppName).telemetryName p.location
      (wsGot p st).id)
    (aiKey_mkAppInsights _ _ _ _)
  simp only [wsGot] at hai
  simp only [run, failAt, hacc, hw]
  simp only [hws]
  simp only [hai]
  simp [errOutcome, wsGot, aiGot, wsKeyOf, aiKeyOf, hws, hai]

/-- Witness for C4: the concrete run in which remote call 7 fails. -/
theorem step5_failure_partial_result_witness :
    exampleState.account = some { name := "sub" } ∧
    findWebApp exampleState "rg" "app" = some exampleWebApp ∧
    (run exampleParams exampleState (failAt 7)).result.status = Status.PartialFailure ∧
    (run exampleParams exampleState (failAt 7)).result.actionGroupId = none :=
  ⟨rfl, by decide,
    (step5_failure_partial_result exampleParams exampleState { name := "sub" } exampleWebApp rfl
      (by decide)).1,
    (step5_failure_partial_result exampleParams exampleState { name := "sub" } exampleWebApp rfl
      (by decide)).2.2.2.2.1⟩

/-- C5: the workflow is idempotent — with the preconditions satisfied and no
provider failures, running it and then running it again yields `Success`
both times, and the second run leaves the cloud state exactly as the first
run left it: every create of the second run finds the existing resource and
creates nothing new. -/
theorem run_idempotent (p : Params) (st : CloudState) (a : Account) (w : WebApp)
    (hacc : st.account = some a)
    (hw : findWebApp st p.resourceGroupName p.webAppName = some w) :
    (run p st noFail).result.status = Status.Success ∧
    (run p ((run p st noFail).state) noFail).result.status = Status.Success ∧
    (run p ((run p st noFail).state) noFail).state = (run p st noFail).state := by
  have h1 := run_noFail_eq p st a w hacc hw
  have hacc1 : (successState p st w).account = some a := by
    rw [successState_account]; exact hacc
  have hw1 : findWebApp (successState p st w) p.resourceGroupName p.webAppName = some w := by
    rw [findWebApp_successState]; exact hw
  have h2 := run_noFail_eq p (successState p st w) a w hacc1 hw1
  refine ⟨?_, ?_, ?_⟩
  · rw [h1]
    rfl
  · rw [h1]
    show (run p (successState p st w) noFail).result.status = Status.Success
    rw [h2]
    rfl
  · rw [h1]
    show (run p (successState p st w) noFail).state = successState p st w
    rw [h2]
    show successState p (successState p st w) w = successState p st w
    exact successState_idem p st w

/-- Witness for C5: the concrete double run. -/
theorem run_idempotent_witness :
    exampleState.account = some { name := "sub" } ∧
    findWebApp exampleState "rg" "app" = some exampleWebApp ∧
    (run exampleParams ((run exampleParams exampleState noFail).state) noFail).state =
      (run exampleParams exampleState noFail).state :=
  ⟨rfl, by decide,
    (run_idempotent exampleParams exampleState { name := "sub" } exampleWebApp rfl
      (by decide)).2.2⟩

/-- C8: every alert rule the workflow ever constructs — in any run, complete
or partial — has its evaluation window (5 minutes) at least its evaluation
frequency (1 minute). -/
theorem alert_window_ge_frequency (p : Params) (st : CloudState) (fail : Nat → Bool) :
    ∀ s ∈ alertCreates (run p st fail).trace,
      s.frequencyMinutes ≤ s.windowMinutes ∧ s.windowMinutes = 5 ∧
        s.frequencyMinutes = 1 := by
  have hws := find?_keyedCreate st.workspaces
    (wsKey p.resourceGroupName (deriveNames p.webAppName).workspaceName)
    (mkWorkspace p.resourceGroupName (deriveNames p.webAppName).workspaceName p.location 30)
    (wsKey_mkWorkspace _ _ _ _)
  have hai := find?_keyedCreate st.appInsights
    (aiKey p.resourceGroupName (deriveNames p.webAppName).telemetryName)
    (mkAppInsights p.resourceGroupName (deriveNames p.webAppName).telemetryName p.location
      (wsGot p st).id)
    (aiKey_mkAppInsights _ _ _ _)
  have hag := find?_keyedCreate st.actionGroups
    (agKey p.resourceGroupName (deriveNames p.webAppName).notificationGroupName)
    (mkActionGroup p.resourceGroupName (deriveNames p.webAppName).notificationGroupName
      "AppAlerts" "AdminEmail" p.alertEmailAddress)
    (agKey_mkActionGroup _ _ _ _ _)
  simp only [wsGot] at hai
  cases hf0 : fail 0 with
  | true => simp [run, hf0, errOutcome, alertCreates]
  | false =>
  cases hacc : st.account with
  | none => simp [run, hf0, hacc, errOutcome, alertCreates]
  | some a =>
  cases hf1 : fail 1 with
  | true => simp [run, hf0, hacc, hf1, errOutcome, alertCreates]
  | false =>
  cases hw : findWebApp st p.resourceGroupName p.webAppName with
  | none => simp [run, hf0, hacc, hf1, hw, errOutcome, alertCreates]
  | some w =>
  cases hf2 : fail 2 with
  | true => simp [run, hf0, hacc, hf1, hw, hf2, errOutcome, alertCreates]
  | false =>
  cases hf3 : fail 3 with
  | true => simp [run, hf0, hacc, hf1, hw, hf2, hf3, errOutcome, alertCreates]
  | false =>
  cases hf4 : fail 4 with
  | true => simp [run, hf0, hacc, hf1, hw, hf2, hf3, hf4, hws, errOutcome, alertCreates]
  | false =>
  cases hf5 : fail 5 with
  | true => simp [run, hf0, hacc, hf1, hw, hf2, hf3, hf4, hf5, hws, errOutcome, alertCreates]
  | false =>
  cases hf6 : fail 6 with
  | true =>
    simp [run, hf0, hacc, hf1, hw, hf2, hf3, hf4, hf5, hf6, hws, hai, errOutcome,
      alertCreates]
  | false =>
  cases hf7 : fail 7 with
  | true =>
    simp [run, hf0, hacc, hf1, hw, hf2, hf3, hf4, hf5, hf6, hf7, hws, hai, errOutcome,
      alertCreates]
  | false =>
  cases hf8 : fail 8 with
  | true =>
    simp [run, hf0, hacc, hf1, hw, hf2, hf3, hf4, hf5, hf6, hf7, hf8, hws, hai, errOutcome,
      alertCreates]
  | false =>
  cases hf9 : fail 9 with
  | true =>
    simp [run, hf0, hacc, hf1, hw, hf2, hf3, hf4, hf5, hf6, hf7, hf8, hf9, hws, hai, hag,
      errOutcome, alertCreates, cpuAlertSpec]
  | false =>
  cases hf10 : fail 10 with
  | true =>
    simp [run, hf0, hacc, hf1, hw, hf2, hf3, hf4, hf5, hf6, hf7, hf8, hf9, hf10, hws, hai,
      hag, errOutcome, alertCreates, cpuAlertSpec, memoryAlertSpec]
  | false =>
  cases hf11 : fail 11 with
  | true =>
    simp [run, hf0, hacc, hf1, hw, hf2, hf3, hf4, hf5, hf6, hf7, hf8, hf9, hf10, hf11, hws,
      hai, hag, errOutcome, alertCreates, cpuAlertSpec, memoryAlertSpec, http5xxAlertSpec]
  | false =>
  cases hf12 : fail 12 with
  | true =>
    simp [run, hf0, hacc, hf1, hw, hf2, hf3, hf4, hf5, hf6, hf7, hf8, hf9, hf10, hf11, hf12,
      hws, hai, hag, errOutcome, alertCreates, cpuAlertSpec, memoryAlertSpec,
      http5xxAlertSpec, responseTimeAlertSpec]
  | false =>
  cases hf13 : fail 13 with
  | true =>
    simp [run, hf0, hacc, hf1, hw, hf2, hf3, hf4, hf5, hf6, hf7, hf8, hf9, hf10, hf11, hf12,
      hf13, hws, hai, hag, errOutcome, alertCreates, cpuAlertSpec, memoryAlertSpec,
      http5xxAlertSpec, responseTimeAlertSpec]
  | false =>
    simp [run, hf0, hacc, hf1, hw, hf2, hf3, hf4, hf5, hf6, hf7, hf8, hf9, hf10, hf11, hf12,
      hf13, hws, hai, hag, errOutcome, alertCreates, cpuAlertSpec, memoryAlertSpec,
      http5xxAlertSpec, responseTimeAlertSpec]

/-- Witness for C8: the CPU alert spec of the concrete run. -/
theorem alert_window_ge_frequency_witness :
    cpuSpecOf exampleParams exampleState exampleWebApp ∈
      alertCreates (run exampleParams exampleState noFail).trace ∧
    (cpuSpecOf exampleParams exampleState exampleWebApp).frequencyMinutes ≤
      (cpuSpecOf exampleParams exampleState exampleWebApp).windowMinutes :=
  ⟨by decide,
    (alert_window_ge_frequency exampleParams exampleState noFail
      (cpuSpecOf exampleParams exampleState exampleWebApp) (by decide)).1⟩
